import Mathlib

/-!
# LcdDisplay.c: the display task of the watch

A shallow embedding of `Device/Application/LcdDisplay.c`.

The file-scope variables of the C file become the fields of `State`.  Every call
that leaves the file (buffer pool, message router, timer service, idle page,
debug output) and every store to one of the three file-scope flags is appended
to `State.trace`, in program order.  What the absent collaborators answer is
taken from an `Env`.

A store through a message pointer that is not a buffer is undefined behaviour
in C.  The model flags it in `State.undefinedBehaviour`; once the flag is up,
nothing else the model says about the run binds the program.
-/

namespace LcdDisplay

/-! ## Data model -/

/-- A `tHostMsg*`: the address of a message buffer. -/
abbrev Ptr := Nat

/-- The message type codes of `Messages.h` that this file names; every other
code is `other code`.  The enumeration itself is not part of this file. -/
inductive eMessageType where
  | IdleUpdate
  | SplashTimeoutMsg
  | UpdateMyDisplayLcd
  | other (code : Nat)
  deriving DecidableEq

/-- The constants this file takes from headers that are not part of it, as
parameters.  `NUM_LCD_ROWS` and `WATCH_CONTROLS_TOP` are only ever passed as or
assigned to an `unsigned char` here and stand for that value; the only
arithmetic on any of them is `ONE_SECOND*3`. -/
structure Consts where
  NUM_LCD_ROWS : Nat
  ONE_SECOND : Nat
  NO_REPEAT : Nat
  NO_MSG_OPTIONS : Nat
  WATCH_CONTROLS_TOP : Nat
  deriving DecidableEq

/-- Source: `#define STARTING_ROW ( 0 )`. -/
def STARTING_ROW : Nat := 0

/-- The contents of `tLcdLine pMyBuffer[NUM_LCD_ROWS]`: rows of bytes. -/
abbrev FrameBuffer := List (List Nat)

/-- What an `unsigned char*` stored in a message can point at: the frame buffer
of this file, or some other address. -/
inductive BufferRef where
  | pMyBuffer
  | otherAddress (a : Nat)
  deriving DecidableEq

/-- The fields of a message buffer that this file reads or writes: `Type`
through `tHostMsg`, and `Type`, `TotalLines`, `pMyDisplay` through the
`tUpdateMyDisplayMsg` view of the same buffer. -/
structure MsgBuffer where
  Type_ : eMessageType
  TotalLines : Nat
  pMyDisplay : BufferRef
  deriving DecidableEq

/-- Modelled from the spec: the timer service (`OneSecondTimers`) is not part of
this file.  Each handle has mutable scheduling state: armed or disarmed,
one-shot or repeating, a period, and the message type it emits on expiry, set
by a configuration call and toggled by start and stop. -/
structure OneSecondTimer where
  armed : Bool
  period : Nat
  repeating : Nat
  messageType : eMessageType
  options : Nat
  deriving DecidableEq

/-- The two texts this file sends to the debug output:
"Display Queue not created!" and
"<<Unhandled Message>> in Lcd Display Task: Type 0x". -/
inductive DebugText where
  | DisplayQueueNotCreated
  | UnhandledMessage
  deriving DecidableEq

/-- The three file-scope flags. -/
inductive Flag where
  | nvIdleBufferConfig
  | nvIdleBufferInvert
  | AllowConnectionStateChangeToUpdateScreen
  deriving DecidableEq

/-- One entry of the trace: a call that leaves this file, with its arguments (and
for the two allocators what they answered), or a store to a file-scope flag. -/
inductive Event where
  | PrintString (text : DebugText)
  | PrintStringAndHex (text : DebugText) (value : eMessageType)
  | CopyRowsIntoMyBuffer (pImage : List Nat) (StartingRow NumberOfRows : Nat)
  | BPL_AllocMessageBuffer (got : Ptr)
  | RouteMsg (pMsg : Ptr) (contents : MsgBuffer)
  | BPL_FreeMessageBuffer (pMsg : Ptr)
  | xQueueReceive (got : Option Ptr)
  | IdlePageHandler
  | InitIdlePage (timerId : Nat) (pBuffer : BufferRef)
  | InitializeDisplaySeconds
  | InitializeTimeFormat
  | InitializeDateFormat
  | AllocateOneSecondTimer (got : Nat)
  | SetupOneSecondTimer (id period repeating : Nat) (msg : eMessageType) (options : Nat)
  | StartOneSecondTimer (id : Nat)
  | StopOneSecondTimer (id : Nat)
  | store (flag : Flag) (value : Nat)
  deriving DecidableEq

/-- The file-scope variables of `LcdDisplay.c`, the message memory and timer
service they point into, the trace, and whether undefined behaviour has been
reached. -/
structure State where
  pDisplayMsg : Ptr
  IdleModeTimerId : Nat
  ApplicationModeTimerId : Nat
  NotificationModeTimerId : Nat
  pMyBuffer : FrameBuffer
  nvIdleBufferConfig : Nat
  nvIdleBufferInvert : Nat
  AllowConnectionStateChangeToUpdateScreen : Nat
  mem : Ptr → MsgBuffer
  timers : Nat → OneSecondTimer
  trace : List Event
  undefinedBehaviour : Bool

/-- Modelled from the spec: the idle-page subsystem is not part of this file.
Its handler "may write the frame buffer and request a hand-off"; one invocation
is a list of such steps. -/
inductive IdleStep where
  | writeBuffer (contents : FrameBuffer)
  | handOff (TotalRows : Nat)
  deriving DecidableEq

/-- What the collaborators outside this file answer.  Each answer may depend on
everything that happened so far. -/
structure Env where
  c : Consts
  /-- The value of `QueueHandles[DISPLAY_QINDEX]`. -/
  queueHandle : Nat
  /-- The bytes of `pMetaWatchSplash`. -/
  pMetaWatchSplash : List Nat
  /-- The effect of `CopyRowsIntoMyBuffer(pImage, StartingRow, NumberOfRows)` on
  the frame buffer. -/
  copyRows : List Nat → Nat → Nat → FrameBuffer → FrameBuffer
  /-- Modelled from the spec: the buffer pool is not part of this file; its
  contract is `allocate() -> handle | exhausted`.  Whether this call of
  `BPL_AllocMessageBuffer` finds the pool exhausted and provides no buffer. -/
  exhausted : State → Bool
  /-- The pointer the caller holds after `BPL_AllocMessageBuffer`: the buffer, when
  one was provided; when none was, whatever the call left in the uninitialised
  local, which is no buffer. -/
  allocResult : State → Ptr
  /-- The handle `AllocateOneSecondTimer` returns. -/
  timerId : State → Nat
  /-- The steps one call of `IdlePageHandler(&IdlePageMain)` takes. -/
  idleSteps : State → List IdleStep

/-- A message taken from the display queue: its buffer and the type its producer
stored there. -/
structure Received where
  pMsg : Ptr
  Type_ : eMessageType
  deriving DecidableEq

/-! ## Memory, timers, trace -/

/-- Append one event to the trace. -/
def State.log (s : State) (e : Event) : State :=
  { s with trace := s.trace ++ [e] }

/-- An update of the message buffer at `p`. -/
def State.poke (s : State) (p : Ptr) (f : MsgBuffer → MsgBuffer) : State :=
  { s with mem := Function.update s.mem p (f (s.mem p)) }

/-- A store of this file through the message pointer `p`.  When `p` is a buffer
(`isBuffer`), the buffer is updated.  When it is not, the store is undefined
behaviour in C: the flag goes up, and the update shown is only what would
follow had the store hit a buffer. -/
def State.store (s : State) (isBuffer : Bool) (p : Ptr) (f : MsgBuffer → MsgBuffer) : State :=
  { s.poke p f with undefinedBehaviour := s.undefinedBehaviour || !isBuffer }

/-- Modelled from the spec: `configure(handle, period, repeat, messageType,
options)` of the timer service sets the configuration of that handle. -/
def SetupOneSecondTimer (id period repeating : Nat) (msg : eMessageType) (options : Nat)
    (s : State) : State :=
  { s with
    timers := Function.update s.timers id
      { s.timers id with period := period, repeating := repeating,
                         messageType := msg, options := options },
    trace := s.trace ++ [Event.SetupOneSecondTimer id period repeating msg options] }

/-- Modelled from the spec: `start(handle)` of the timer service arms that
handle. -/
def StartOneSecondTimer (id : Nat) (s : State) : State :=
  { s with
    timers := Function.update s.timers id { s.timers id with armed := true },
    trace := s.trace ++ [Event.StartOneSecondTimer id] }

/-- Modelled from the spec: `stop(handle)` of the timer service disarms that
handle and does nothing else. -/
def StopOneSecondTimer (id : Nat) (s : State) : State :=
  { s with
    timers := Function.update s.timers id { s.timers id with armed := false },
    trace := s.trace ++ [Event.StopOneSecondTimer id] }

/-! ## The functions of LcdDisplay.c -/

/-- Source: `void SendMyBufferToLcd(unsigned char TotalRows)`.  No test of the
allocation stands between `BPL_AllocMessageBuffer` and the three stores:
`pOutgoingMsg` is a buffer exactly when the pool provided one. -/
def SendMyBufferToLcd (env : Env) (TotalRows : Nat) (s : State) : State :=
  let isBuffer := !env.exhausted s
  let pOutgoingMsg := env.allocResult s
  let s := s.log (Event.BPL_AllocMessageBuffer pOutgoingMsg)
  let s := s.store isBuffer pOutgoingMsg
    (fun m => { m with Type_ := eMessageType.UpdateMyDisplayLcd })
  let s := s.store isBuffer pOutgoingMsg (fun m => { m with TotalLines := TotalRows })
  let s := s.store isBuffer pOutgoingMsg (fun m => { m with pMyDisplay := BufferRef.pMyBuffer })
  s.log (Event.RouteMsg pOutgoingMsg (s.mem pOutgoingMsg))

/-- Source: `static void DisplayStartupScreen(void)`. -/
def DisplayStartupScreen (env : Env) (s : State) : State :=
  let pImage := env.pMetaWatchSplash
  let s : State :=
    { s with pMyBuffer := env.copyRows pImage STARTING_ROW env.c.NUM_LCD_ROWS s.pMyBuffer }
  let s := s.log (Event.CopyRowsIntoMyBuffer pImage STARTING_ROW env.c.NUM_LCD_ROWS)
  SendMyBufferToLcd env env.c.NUM_LCD_ROWS s

/-- One `AllocateOneSecondTimer()` call: the handle and the state after. -/
def AllocateOneSecondTimer (env : Env) (s : State) : Nat × State :=
  (env.timerId s, s.log (Event.AllocateOneSecondTimer (env.timerId s)))

/-- Source: `static void AllocateDisplayTimers(void)`. -/
def AllocateDisplayTimers (env : Env) (s : State) : State :=
  let r := AllocateOneSecondTimer env s
  let s := { r.2 with IdleModeTimerId := r.1 }
  let r := AllocateOneSecondTimer env s
  let s := { r.2 with ApplicationModeTimerId := r.1 }
  let r := AllocateOneSecondTimer env s
  { r.2 with NotificationModeTimerId := r.1 }

/-- Source: `static void SetupSplashScreenTimeout(void)`. -/
def SetupSplashScreenTimeout (env : Env) (s : State) : State :=
  let s := SetupOneSecondTimer s.IdleModeTimerId (env.c.ONE_SECOND * 3) env.c.NO_REPEAT
    eMessageType.SplashTimeoutMsg env.c.NO_MSG_OPTIONS s
  let s := StartOneSecondTimer s.IdleModeTimerId s
  let s := { s with AllowConnectionStateChangeToUpdateScreen := 0 }
  s.log (Event.store Flag.AllowConnectionStateChangeToUpdateScreen 0)

/-- Source: `void StopAllDisplayTimers(void)`. -/
def StopAllDisplayTimers (s : State) : State :=
  let s := StopOneSecondTimer s.IdleModeTimerId s
  let s := StopOneSecondTimer s.ApplicationModeTimerId s
  StopOneSecondTimer s.NotificationModeTimerId s

/-- Source: `static void InitialiazeIdleBufferConfig(void)`. -/
def InitialiazeIdleBufferConfig (env : Env) (s : State) : State :=
  let s := { s with nvIdleBufferConfig := env.c.WATCH_CONTROLS_TOP }
  s.log (Event.store Flag.nvIdleBufferConfig env.c.WATCH_CONTROLS_TOP)

/-- Source: `static void InitializeIdleBufferInvert(void)`. -/
def InitializeIdleBufferInvert (s : State) : State :=
  let s := { s with nvIdleBufferInvert := 0 }
  s.log (Event.store Flag.nvIdleBufferInvert 0)

/-- Source: `void ToggleIdleBufferInvert(void)`. -/
def ToggleIdleBufferInvert (s : State) : State :=
  if s.nvIdleBufferInvert = 1 then
    ({ s with nvIdleBufferInvert := 0 } : State).log (Event.store Flag.nvIdleBufferInvert 0)
  else
    ({ s with nvIdleBufferInvert := 1 } : State).log (Event.store Flag.nvIdleBufferInvert 1)

/-- Source: `unsigned char QueryInvertDisplay(void)`.  The value returned and the
state after. -/
def QueryInvertDisplay (s : State) : Nat × State :=
  (s.nvIdleBufferInvert, s)

/-- Source: `unsigned char GetIdleBufferConfiguration(void)`.  The value returned
and the state after. -/
def GetIdleBufferConfiguration (s : State) : Nat × State :=
  (s.nvIdleBufferConfig, s)

/-- Source: `void SaveIdleBufferInvert(void)`, whose body is empty. -/
def SaveIdleBufferInvert (s : State) : State := s

/-- Modelled from the spec: the steps of one idle-page invocation, run in order.
A write replaces the frame buffer contents; a hand-off request is a call of
`SendMyBufferToLcd`. -/
def runIdleSteps (env : Env) : List IdleStep → State → State
  | [], s => s
  | IdleStep.writeBuffer b :: rest, s => runIdleSteps env rest { s with pMyBuffer := b }
  | IdleStep.handOff r :: rest, s => runIdleSteps env rest (SendMyBufferToLcd env r s)

/-- Modelled from the spec: the call `IdlePageHandler(&IdlePageMain)`, which is
not part of this file: the call is recorded and its steps are run. -/
def IdlePageHandler (env : Env) (s : State) : State :=
  let s := s.log Event.IdlePageHandler
  runIdleSteps env (env.idleSteps s) s

/-- Source: `static void DisplayQueueMessageHandler(tHostMsg* pMsg)`. -/
def DisplayQueueMessageHandler (env : Env) (pMsg : Ptr) (s : State) : State :=
  let Type_ := (s.mem pMsg).Type_
  match Type_ with
  | eMessageType.IdleUpdate => IdlePageHandler env s
  | eMessageType.SplashTimeoutMsg =>
      let s := { s with AllowConnectionStateChangeToUpdateScreen := 1 }
      let s := s.log (Event.store Flag.AllowConnectionStateChangeToUpdateScreen 1)
      IdlePageHandler env s
  | _ => s.log (Event.PrintStringAndHex DebugText.UnhandledMessage Type_)

/-- A successful `xQueueReceive(QueueHandles[DISPLAY_QINDEX], &pDisplayMsg,
portMAX_DELAY)`: the pointer is stored in `pDisplayMsg`, and the buffer it points
at holds the type its producer wrote there before queueing it. -/
def xQueueReceive (m : Received) (s : State) : State :=
  let s := { s with pDisplayMsg := m.pMsg }
  let s := s.poke m.pMsg (fun b => { b with Type_ := m.Type_ })
  s.log (Event.xQueueReceive (some m.pMsg))

/-- The call `BPL_FreeMessageBuffer(&pDisplayMsg)`: the call is recorded with the
pointer it is given.  Nothing in this file reads `pDisplayMsg` again before the next
receive overwrites it. -/
def BPL_FreeMessageBuffer (s : State) : State :=
  s.log (Event.BPL_FreeMessageBuffer s.pDisplayMsg)

/-- The part of `DisplayTask` before `while (1)`.  The calls that leave the file
(the three display-format initialisations, the timer allocations,
`InitIdlePage`) are recorded; what they do outside this file is not
followed. -/
def DisplayTask_startup (env : Env) (s : State) : State :=
  let s := if env.queueHandle = 0 then s.log (Event.PrintString DebugText.DisplayQueueNotCreated)
           else s
  let s := DisplayStartupScreen env s
  let s := InitialiazeIdleBufferConfig env s
  let s := InitializeIdleBufferInvert s
  let s := s.log Event.InitializeDisplaySeconds
  let s := s.log Event.InitializeTimeFormat
  let s := s.log Event.InitializeDateFormat
  let s := AllocateDisplayTimers env s
  let s := s.log (Event.InitIdlePage s.IdleModeTimerId BufferRef.pMyBuffer)
  SetupSplashScreenTimeout env s

/-- One pass through the body of `while (1)`: `rx` is what `xQueueReceive` gave,
`none` when it did not return `pdTRUE`. -/
def DisplayTask_iteration (env : Env) (rx : Option Received) (s : State) : State :=
  match rx with
  | some m =>
      let s := xQueueReceive m s
      let s := DisplayQueueMessageHandler env s.pDisplayMsg s
      BPL_FreeMessageBuffer s
  | none => s.log (Event.xQueueReceive none)

/-- The loop of `DisplayTask` over the outcomes of its successive receives. -/
def DisplayTask_loop (env : Env) : List (Option Received) → State → State
  | [], s => s
  | rx :: rest, s => DisplayTask_loop env rest (DisplayTask_iteration env rx s)

/-- Source: `static void DisplayTask(void *pvParameters)`, up to the point where
the receives in `rxs` have been served. -/
def DisplayTask (env : Env) (rxs : List (Option Received)) (s : State) : State :=
  DisplayTask_loop env rxs (DisplayTask_startup env s)

/-! ## Reading the trace -/

/-- Is the event a `BPL_AllocMessageBuffer` call? -/
def Event.isAlloc : Event → Bool
  | Event.BPL_AllocMessageBuffer _ => true
  | _ => false

/-- Is the event a `BPL_FreeMessageBuffer` call? -/
def Event.isFree : Event → Bool
  | Event.BPL_FreeMessageBuffer _ => true
  | _ => false

/-- Is the event a `RouteMsg` call? -/
def Event.isRoute : Event → Bool
  | Event.RouteMsg _ _ => true
  | _ => false

/-- Is the event an `xQueueReceive` call? -/
def Event.isReceive : Event → Bool
  | Event.xQueueReceive _ => true
  | _ => false

/-- Number of `BPL_AllocMessageBuffer` calls in a trace. -/
def allocCalls (t : List Event) : Nat := t.countP Event.isAlloc

/-- Number of `BPL_FreeMessageBuffer` calls in a trace. -/
def freeCalls (t : List Event) : Nat := t.countP Event.isFree

/-- Number of `RouteMsg` calls in a trace. -/
def routeCalls (t : List Event) : Nat := t.countP Event.isRoute

/-- Number of `xQueueReceive` calls in a trace. -/
def receiveCalls (t : List Event) : Nat := t.countP Event.isReceive

/-- The buffers `BPL_AllocMessageBuffer` left the caller with, in order. -/
def allocated (t : List Event) : List Ptr :=
  t.filterMap fun e =>
    match e with
    | Event.BPL_AllocMessageBuffer p => some p
    | _ => none

/-- The buffers passed to `RouteMsg`, in order. -/
def routed (t : List Event) : List Ptr :=
  t.filterMap fun e =>
    match e with
    | Event.RouteMsg p _ => some p
    | _ => none

/-- The buffers passed to `BPL_FreeMessageBuffer`, in order. -/
def freed (t : List Event) : List Ptr :=
  t.filterMap fun e =>
    match e with
    | Event.BPL_FreeMessageBuffer p => some p
    | _ => none

/-- The buffers of the messages actually received among the outcomes `rxs`, in
order. -/
def receivedPtrs (rxs : List (Option Received)) : List Ptr :=
  rxs.filterMap fun rx => rx.map fun m => m.pMsg

/-- Number of messages actually received among the outcomes `rxs`. -/
def received (rxs : List (Option Received)) : Nat := (rxs.filter Option.isSome).length

/-- The state without its history: every variable, the message memory and the
timers, with the trace emptied. -/
def State.forget (s : State) : State := { s with trace := [] }

/-- The message `SendMyBufferToLcd(TotalRows)` builds. -/
def handOffMsg (TotalRows : Nat) : MsgBuffer :=
  { Type_ := eMessageType.UpdateMyDisplayLcd, TotalLines := TotalRows,
    pMyDisplay := BufferRef.pMyBuffer }

/-! ## A concrete environment -/

/-- Sample values for the header constants: a display of two rows. -/
def sampleConsts : Consts :=
  { NUM_LCD_ROWS := 2, ONE_SECOND := 1, NO_REPEAT := 0, NO_MSG_OPTIONS := 0,
    WATCH_CONTROLS_TOP := 0 }

/-- A sample row copy: row `StartingRow + i` of the buffer becomes the `i`-th
group of twelve image bytes, for `i < NumberOfRows`. -/
def sampleCopyRows (pImage : List Nat) (StartingRow NumberOfRows : Nat)
    (buf : FrameBuffer) : FrameBuffer :=
  (List.range buf.length).map fun row =>
    if StartingRow ≤ row ∧ row < StartingRow + NumberOfRows then
      (pImage.drop ((row - StartingRow) * 12)).take 12
    else buf.getD row []

/-- A sample environment: the queue exists, the pool hands out a fresh buffer on
every call, the timer service numbers its handles 0, 1, 2, ... and the idle
page redraws both rows and hands them off. -/
def sampleEnv : Env :=
  { c := sampleConsts
    queueHandle := 1
    exhausted := fun _ => false
    pMetaWatchSplash := List.replicate 24 255
    copyRows := sampleCopyRows
    allocResult := fun s => 100 + allocCalls s.trace
    timerId := fun s => s.trace.countP fun e =>
      match e with
      | Event.AllocateOneSecondTimer _ => true
      | _ => false
    idleSteps := fun _ =>
      [IdleStep.writeBuffer [List.replicate 12 1, List.replicate 12 2], IdleStep.handOff 2] }

/-- The sample environment with the pool exhausted: no allocation provides a
buffer, and the pointer the caller is left with (0 here) is none. -/
def exhaustedEnv : Env :=
  { sampleEnv with exhausted := fun _ => true, allocResult := fun _ => 0 }

/-- A power-on state: zero-initialised variables, a two-row frame buffer, all
timers disarmed, no history. -/
def powerOn : State :=
  { pDisplayMsg := 0
    IdleModeTimerId := 0
    ApplicationModeTimerId := 0
    NotificationModeTimerId := 0
    pMyBuffer := [List.replicate 12 0, List.replicate 12 0]
    nvIdleBufferConfig := 0
    nvIdleBufferInvert := 0
    AllowConnectionStateChangeToUpdateScreen := 0
    mem := fun _ => { Type_ := eMessageType.other 0, TotalLines := 0,
                      pMyDisplay := BufferRef.otherAddress 0 }
    timers := fun _ => { armed := false, period := 0, repeating := 0,
                         messageType := eMessageType.other 0, options := 0 }
    trace := []
    undefinedBehaviour := false }

/-- The events of the startup code after the queue check, given the answer of the pool
`p` and the state `S` startup ends in. -/
def startupEvents (env : Env) (p : Ptr) (S : State) : List Event :=
  [Event.CopyRowsIntoMyBuffer env.pMetaWatchSplash STARTING_ROW env.c.NUM_LCD_ROWS,
   Event.BPL_AllocMessageBuffer p,
   Event.RouteMsg p (handOffMsg env.c.NUM_LCD_ROWS),
   Event.store Flag.nvIdleBufferConfig env.c.WATCH_CONTROLS_TOP,
   Event.store Flag.nvIdleBufferInvert 0,
   Event.InitializeDisplaySeconds,
   Event.InitializeTimeFormat,
   Event.InitializeDateFormat,
   Event.AllocateOneSecondTimer S.IdleModeTimerId,
   Event.AllocateOneSecondTimer S.ApplicationModeTimerId,
   Event.AllocateOneSecondTimer S.NotificationModeTimerId,
   Event.InitIdlePage S.IdleModeTimerId BufferRef.pMyBuffer,
   Event.SetupOneSecondTimer S.IdleModeTimerId (env.c.ONE_SECOND * 3) env.c.NO_REPEAT
     eMessageType.SplashTimeoutMsg env.c.NO_MSG_OPTIONS,
   Event.StartOneSecondTimer S.IdleModeTimerId,
   Event.store Flag.AllowConnectionStateChangeToUpdateScreen 0]

/-- The events of the queue check. -/
def queueCheckEvents (env : Env) : List Event :=
  if env.queueHandle = 0 then [Event.PrintString DebugText.DisplayQueueNotCreated] else []

/-- Do the receive outcomes hold a message of type `SplashTimeoutMsg`? -/
def hasSplash (rxs : List (Option Received)) : Bool :=
  rxs.any fun rx =>
    match rx with
    | some m => decide (m.Type_ = eMessageType.SplashTimeoutMsg)
    | none => false

/-- One call into this file from outside the dispatch of a message, or one pass
through the task loop. -/
inductive Op where
  | ToggleIdleBufferInvert
  | QueryInvertDisplay
  | GetIdleBufferConfiguration
  | receive (rx : Option Received)
  deriving DecidableEq

/-- Run one `Op`. -/
def runOp (env : Env) : Op → State → State
  | Op.ToggleIdleBufferInvert, s => ToggleIdleBufferInvert s
  | Op.QueryInvertDisplay, s => (QueryInvertDisplay s).2
  | Op.GetIdleBufferConfiguration, s => (GetIdleBufferConfiguration s).2
  | Op.receive rx, s => DisplayTask_iteration env rx s

/-- Run an interleaving of toggles, reads and loop passes, in order. -/
def runOps (env : Env) : List Op → State → State
  | [], s => s
  | o :: rest, s => runOps env rest (runOp env o s)

/-- Number of `ToggleIdleBufferInvert` calls in an interleaving. -/
def toggles (ops : List Op) : Nat :=
  ops.countP fun o =>
    match o with
    | Op.ToggleIdleBufferInvert => true
    | _ => false

/-- The variables that only this file writes, and the timers: everything a
hand-off or an idle-page step leaves alone. -/
def State.own (s : State) :
    Ptr × Nat × Nat × Nat × Nat × Nat × Nat × (Nat → OneSecondTimer) :=
  (s.pDisplayMsg, s.IdleModeTimerId, s.ApplicationModeTimerId, s.NotificationModeTimerId,
   s.nvIdleBufferConfig, s.nvIdleBufferInvert, s.AllowConnectionStateChangeToUpdateScreen,
   s.timers)

/-- Events among which nothing is freed and nothing received, and in which the
buffers allocated are, one for one and in order, the buffers routed. -/
def quietEvents (evs : List Event) : Prop :=
  (∀ e ∈ evs, e.isFree = false ∧ e.isReceive = false) ∧ allocCalls evs = routeCalls evs ∧
    allocated evs = routed evs

/-- The events of the loop serving the receive outcomes `rxs`, pass after pass:
an empty-handed receive is that receive alone; a received message is its
receive, then quiet events, then the free of its buffer. -/
def servedBy : List (Option Received) → List Event → Prop
  | [], evs => evs = []
  | none :: rest, evs => ∃ tl, evs = Event.xQueueReceive none :: tl ∧ servedBy rest tl
  | some m :: rest, evs => ∃ d tl,
      evs = Event.xQueueReceive (some m.pMsg) :: (d ++ Event.BPL_FreeMessageBuffer m.pMsg :: tl) ∧
      quietEvents d ∧ servedBy rest tl

/-! ## Basic facts -/

theorem SendMyBufferToLcd_trace (env : Env) (r : Nat) (s : State) :
    (SendMyBufferToLcd env r s).trace =
      s.trace ++ [Event.BPL_AllocMessageBuffer (env.allocResult s),
                  Event.RouteMsg (env.allocResult s) (handOffMsg r)] := by
  simp [SendMyBufferToLcd, State.log, State.store, State.poke, handOffMsg]

theorem SendMyBufferToLcd_mem (env : Env) (r : Nat) (s : State) :
    (SendMyBufferToLcd env r s).mem =
      Function.update s.mem (env.allocResult s) (handOffMsg r) := by
  simp [SendMyBufferToLcd, State.log, State.store, State.poke, handOffMsg]

theorem SendMyBufferToLcd_own (env : Env) (r : Nat) (s : State) :
    (SendMyBufferToLcd env r s).own = s.own := by
  simp [SendMyBufferToLcd, State.log, State.store, State.poke, State.own]

theorem SendMyBufferToLcd_pMyBuffer (env : Env) (r : Nat) (s : State) :
    (SendMyBufferToLcd env r s).pMyBuffer = s.pMyBuffer := by
  simp [SendMyBufferToLcd, State.log, State.store, State.poke]

theorem quietEvents_nil : quietEvents [] := by
  simp [quietEvents, allocCalls, routeCalls, allocated, routed]

theorem quietEvents_append {a b : List Event} (ha : quietEvents a) (hb : quietEvents b) :
    quietEvents (a ++ b) := by
  refine ⟨?_, ?_, ?_⟩
  · intro e he
    rcases List.mem_append.mp he with h | h
    · exact ha.1 e h
    · exact hb.1 e h
  · have h1 := ha.2.1
    have h2 := hb.2.1
    simp only [allocCalls, routeCalls, List.countP_append] at *
    omega
  · have h1 := ha.2.2
    have h2 := hb.2.2
    unfold allocated routed at *
    rw [List.filterMap_append, List.filterMap_append, h1, h2]

theorem quietEvents_freeCalls {evs : List Event} (h : quietEvents evs) : freeCalls evs = 0 := by
  simp only [freeCalls, List.countP_eq_zero]
  intro e he
  simp [(h.1 e he).1]

theorem quietEvents_receiveCalls {evs : List Event} (h : quietEvents evs) :
    receiveCalls evs = 0 := by
  simp only [receiveCalls, List.countP_eq_zero]
  intro e he
  simp [(h.1 e he).2]

theorem runIdleSteps_own (env : Env) (steps : List IdleStep) (s : State) :
    (runIdleSteps env steps s).own = s.own := by
  induction steps generalizing s with
  | nil => rfl
  | cons st rest ih =>
    cases st with
    | writeBuffer b =>
      rw [runIdleSteps, ih]
      rfl
    | handOff r => rw [runIdleSteps, ih, SendMyBufferToLcd_own]

theorem runIdleSteps_trace (env : Env) (steps : List IdleStep) (s : State) :
    ∃ evs, (runIdleSteps env steps s).trace = s.trace ++ evs ∧ quietEvents evs := by
  induction steps generalizing s with
  | nil => exact ⟨[], by simp [runIdleSteps], quietEvents_nil⟩
  | cons st rest ih =>
    cases st with
    | writeBuffer b =>
      obtain ⟨evs, h1, h2⟩ := ih { s with pMyBuffer := b }
      exact ⟨evs, by simpa [runIdleSteps] using h1, h2⟩
    | handOff r =>
      obtain ⟨evs, h1, h2⟩ := ih (SendMyBufferToLcd env r s)
      refine ⟨[Event.BPL_AllocMessageBuffer (env.allocResult s),
               Event.RouteMsg (env.allocResult s) (handOffMsg r)] ++ evs, ?_, ?_⟩
      · simp [runIdleSteps, h1, SendMyBufferToLcd_trace]
      · refine quietEvents_append ?_ h2
        simp [quietEvents, allocCalls, routeCalls, allocated, routed, Event.isFree,
          Event.isReceive, Event.isAlloc, Event.isRoute]

theorem IdlePageHandler_own (env : Env) (s : State) :
    (IdlePageHandler env s).own = s.own := by
  unfold IdlePageHandler
  rw [runIdleSteps_own]
  rfl

theorem IdlePageHandler_trace (env : Env) (s : State) :
    ∃ evs, (IdlePageHandler env s).trace = s.trace ++ Event.IdlePageHandler :: evs ∧
      quietEvents evs := by
  obtain ⟨evs, h1, h2⟩ := runIdleSteps_trace env (env.idleSteps (s.log Event.IdlePageHandler))
    (s.log Event.IdlePageHandler)
  exact ⟨evs, by simpa [IdlePageHandler, State.log] using h1, h2⟩

theorem quietEvents_single {e : Event} (h1 : e.isFree = false) (h2 : e.isReceive = false)
    (h3 : e.isAlloc = false) (h4 : e.isRoute = false) : quietEvents [e] := by
  refine ⟨by simp [h1, h2], by simp [allocCalls, routeCalls, h3, h4], ?_⟩
  cases e <;> simp_all [allocated, routed, Event.isAlloc, Event.isRoute]

theorem quietEvents_cons {e : Event} {evs : List Event} (h1 : e.isFree = false)
    (h2 : e.isReceive = false) (h3 : e.isAlloc = false) (h4 : e.isRoute = false)
    (h : quietEvents evs) : quietEvents (e :: evs) :=
  quietEvents_append (quietEvents_single h1 h2 h3 h4) h

/-- The three branches of the `switch` in `DisplayQueueMessageHandler`. -/
theorem DisplayQueueMessageHandler_cases (env : Env) (p : Ptr) (s : State) :
    ((s.mem p).Type_ = eMessageType.IdleUpdate ∧
      DisplayQueueMessageHandler env p s = IdlePageHandler env s) ∨
    ((s.mem p).Type_ = eMessageType.SplashTimeoutMsg ∧
      DisplayQueueMessageHandler env p s = IdlePageHandler env
        (({ s with AllowConnectionStateChangeToUpdateScreen := 1 } : State).log
          (Event.store Flag.AllowConnectionStateChangeToUpdateScreen 1))) ∨
    ((s.mem p).Type_ ≠ eMessageType.IdleUpdate ∧
      (s.mem p).Type_ ≠ eMessageType.SplashTimeoutMsg ∧
      DisplayQueueMessageHandler env p s =
        s.log (Event.PrintStringAndHex DebugText.UnhandledMessage (s.mem p).Type_)) := by
  unfold DisplayQueueMessageHandler
  cases h : (s.mem p).Type_ <;> simp

theorem DisplayQueueMessageHandler_trace (env : Env) (p : Ptr) (s : State) :
    ∃ evs, (DisplayQueueMessageHandler env p s).trace = s.trace ++ evs ∧ quietEvents evs := by
  rcases DisplayQueueMessageHandler_cases env p s with ⟨_, h⟩ | ⟨_, h⟩ | ⟨_, _, h⟩
  · obtain ⟨evs, h1, h2⟩ := IdlePageHandler_trace env s
    exact ⟨Event.IdlePageHandler :: evs, by rw [h, h1], quietEvents_cons rfl rfl rfl rfl h2⟩
  · obtain ⟨evs, h1, h2⟩ := IdlePageHandler_trace env
      (({ s with AllowConnectionStateChangeToUpdateScreen := 1 } : State).log
        (Event.store Flag.AllowConnectionStateChangeToUpdateScreen 1))
    refine ⟨Event.store Flag.AllowConnectionStateChangeToUpdateScreen 1 ::
      Event.IdlePageHandler :: evs, ?_, ?_⟩
    · rw [h, h1]
      simp [State.log]
    · exact quietEvents_cons rfl rfl rfl rfl (quietEvents_cons rfl rfl rfl rfl h2)
  · exact ⟨[Event.PrintStringAndHex DebugText.UnhandledMessage (s.mem p).Type_],
      by rw [h]; simp [State.log], quietEvents_single rfl rfl rfl rfl⟩

theorem DisplayQueueMessageHandler_pDisplayMsg (env : Env) (p : Ptr) (s : State) :
    (DisplayQueueMessageHandler env p s).pDisplayMsg = s.pDisplayMsg := by
  rcases DisplayQueueMessageHandler_cases env p s with ⟨_, h⟩ | ⟨_, h⟩ | ⟨_, _, h⟩
  · rw [h]
    exact congrArg (fun o => o.1) (IdlePageHandler_own env s)
  · rw [h]
    exact congrArg (fun o => o.1) (IdlePageHandler_own env _)
  · rw [h]
    rfl

theorem DisplayQueueMessageHandler_invert (env : Env) (p : Ptr) (s : State) :
    (DisplayQueueMessageHandler env p s).nvIdleBufferInvert = s.nvIdleBufferInvert ∧
    (DisplayQueueMessageHandler env p s).nvIdleBufferConfig = s.nvIdleBufferConfig := by
  rcases DisplayQueueMessageHandler_cases env p s with ⟨_, h⟩ | ⟨_, h⟩ | ⟨_, _, h⟩
  · have h0 := IdlePageHandler_own env s
    rw [h]
    exact ⟨congrArg (fun o => o.2.2.2.2.2.1) h0, congrArg (fun o => o.2.2.2.2.1) h0⟩
  · have h0 := IdlePageHandler_own env
      (({ s with AllowConnectionStateChangeToUpdateScreen := 1 } : State).log
        (Event.store Flag.AllowConnectionStateChangeToUpdateScreen 1))
    rw [h]
    exact ⟨congrArg (fun o => o.2.2.2.2.2.1) h0, congrArg (fun o => o.2.2.2.2.1) h0⟩
  · rw [h]
    exact ⟨rfl, rfl⟩

/-- The gating flag after a dispatch: 1 for `SplashTimeoutMsg`, unchanged for
every other type. -/
theorem DisplayQueueMessageHandler_gate (env : Env) (p : Ptr) (s : State) :
    (DisplayQueueMessageHandler env p s).AllowConnectionStateChangeToUpdateScreen =
      if (s.mem p).Type_ = eMessageType.SplashTimeoutMsg then 1
      else s.AllowConnectionStateChangeToUpdateScreen := by
  rcases DisplayQueueMessageHandler_cases env p s with ⟨h1, h⟩ | ⟨h1, h⟩ | ⟨_, h1, h⟩
  · rw [h, h1]
    exact congrArg (fun o => o.2.2.2.2.2.2.1) (IdlePageHandler_own env s)
  · rw [h, h1]
    exact congrArg (fun o => o.2.2.2.2.2.2.1) (IdlePageHandler_own env _)
  · rw [h, if_neg h1]
    rfl

theorem xQueueReceive_type (m : Received) (s : State) :
    ((xQueueReceive m s).mem (xQueueReceive m s).pDisplayMsg).Type_ = m.Type_ := by
  simp [xQueueReceive, State.log, State.poke]

theorem xQueueReceive_pDisplayMsg (m : Received) (s : State) :
    (xQueueReceive m s).pDisplayMsg = m.pMsg := by
  simp [xQueueReceive, State.log, State.poke]

theorem xQueueReceive_trace (m : Received) (s : State) :
    (xQueueReceive m s).trace = s.trace ++ [Event.xQueueReceive (some m.pMsg)] := by
  simp [xQueueReceive, State.log, State.poke]

theorem DisplayTask_iteration_some (env : Env) (m : Received) (s : State) :
    DisplayTask_iteration env (some m) s =
      BPL_FreeMessageBuffer (DisplayQueueMessageHandler env m.pMsg (xQueueReceive m s)) := by
  simp [DisplayTask_iteration, xQueueReceive_pDisplayMsg]

/-- The events of one pass through the loop body: for a received message, the
receive, quiet dispatch events, and one free of the buffer of that message. -/
theorem DisplayTask_iteration_trace (env : Env) (rx : Option Received) (s : State) :
    ∃ evs, (DisplayTask_iteration env rx s).trace = s.trace ++ evs ∧
      freeCalls evs = received [rx] ∧ allocCalls evs = routeCalls evs ∧
      receiveCalls evs = 1 := by
  cases rx with
  | none =>
    exact ⟨[Event.xQueueReceive none], by simp [DisplayTask_iteration, State.log],
      by simp [freeCalls, received, Event.isFree],
      by simp [allocCalls, routeCalls, Event.isAlloc, Event.isRoute],
      by simp [receiveCalls, Event.isReceive]⟩
  | some m =>
    obtain ⟨evs, h1, h2⟩ := DisplayQueueMessageHandler_trace env m.pMsg (xQueueReceive m s)
    have hp : (DisplayQueueMessageHandler env m.pMsg (xQueueReceive m s)).pDisplayMsg = m.pMsg := by
      rw [DisplayQueueMessageHandler_pDisplayMsg, xQueueReceive_pDisplayMsg]
    refine ⟨Event.xQueueReceive (some m.pMsg) :: (evs ++ [Event.BPL_FreeMessageBuffer m.pMsg]),
      ?_, ?_, ?_, ?_⟩
    · rw [DisplayTask_iteration_some]
      simp [BPL_FreeMessageBuffer, State.log, h1, hp, xQueueReceive_trace]
    · have := quietEvents_freeCalls h2
      simp only [freeCalls] at this
      simp [freeCalls, received, Event.isFree, List.countP_cons, this]
    · have := h2.2.1
      simp only [allocCalls, routeCalls] at this
      simp [allocCalls, routeCalls, Event.isAlloc, Event.isRoute, List.countP_cons, this]
    · have := quietEvents_receiveCalls h2
      simp only [receiveCalls] at this
      simp [receiveCalls, Event.isReceive, List.countP_cons, this]

theorem DisplayStartupScreen_trace (env : Env) (s : State) :
    ∃ p, (DisplayStartupScreen env s).trace = s.trace ++
      [Event.CopyRowsIntoMyBuffer env.pMetaWatchSplash STARTING_ROW env.c.NUM_LCD_ROWS,
       Event.BPL_AllocMessageBuffer p,
       Event.RouteMsg p (handOffMsg env.c.NUM_LCD_ROWS)] := by
  refine ⟨env.allocResult (State.log
    { s with pMyBuffer :=
        env.copyRows env.pMetaWatchSplash STARTING_ROW env.c.NUM_LCD_ROWS s.pMyBuffer }
    (Event.CopyRowsIntoMyBuffer env.pMetaWatchSplash STARTING_ROW env.c.NUM_LCD_ROWS)), ?_⟩
  simp only [DisplayStartupScreen, SendMyBufferToLcd_trace]
  simp [State.log]

theorem DisplayTask_startup_trace (env : Env) (s : State) :
    ∃ p, (DisplayTask_startup env s).trace =
      s.trace ++ queueCheckEvents env ++ startupEvents env p (DisplayTask_startup env s) := by
  simp only [DisplayTask_startup]
  generalize hs1 : (if env.queueHandle = 0 then
    s.log (Event.PrintString DebugText.DisplayQueueNotCreated) else s) = s1
  have h1 : s1.trace = s.trace ++ queueCheckEvents env := by
    subst hs1
    unfold queueCheckEvents
    split <;> simp [State.log]
  obtain ⟨p, hp⟩ := DisplayStartupScreen_trace env s1
  generalize DisplayStartupScreen env s1 = s2 at hp ⊢
  refine ⟨p, ?_⟩
  simp [startupEvents, hp, h1, InitialiazeIdleBufferConfig, InitializeIdleBufferInvert,
    AllocateDisplayTimers, AllocateOneSecondTimer, SetupSplashScreenTimeout,
    SetupOneSecondTimer, StartOneSecondTimer, State.log]

theorem received_cons (rx : Option Received) (rest : List (Option Received)) :
    received (rx :: rest) = received [rx] + received rest := by
  cases rx
  · simp [received, List.filter_cons]
  · simp [received, List.filter_cons]
    omega

/-- The events of the loop: one free per received message, every allocation
routed, one receive per pass. -/
theorem DisplayTask_loop_trace (env : Env) (rxs : List (Option Received)) (s : State) :
    ∃ evs, (DisplayTask_loop env rxs s).trace = s.trace ++ evs ∧
      freeCalls evs = received rxs ∧ allocCalls evs = routeCalls evs ∧
      receiveCalls evs = rxs.length := by
  induction rxs generalizing s with
  | nil =>
    exact ⟨[], by simp [DisplayTask_loop], by simp [freeCalls, received],
      by simp [allocCalls, routeCalls], by simp [receiveCalls]⟩
  | cons rx rest ih =>
    obtain ⟨e1, h1, f1, a1, r1⟩ := DisplayTask_iteration_trace env rx s
    obtain ⟨e2, h2, f2, a2, r2⟩ := ih (DisplayTask_iteration env rx s)
    refine ⟨e1 ++ e2, ?_, ?_, ?_, ?_⟩
    · simp [DisplayTask_loop, h2, h1]
    · rw [received_cons, ← f1, ← f2]
      simp [freeCalls]
    · simp only [allocCalls, routeCalls, List.countP_append] at *
      omega
    · simp only [receiveCalls, List.countP_append, List.length_cons] at *
      omega

theorem startupEvents_counts (env : Env) (p : Ptr) (S : State) :
    allocCalls (startupEvents env p S) = 1 ∧ routeCalls (startupEvents env p S) = 1 ∧
    freeCalls (startupEvents env p S) = 0 ∧ receiveCalls (startupEvents env p S) = 0 := by
  simp [startupEvents, allocCalls, routeCalls, freeCalls, receiveCalls, Event.isAlloc,
    Event.isRoute, Event.isFree, Event.isReceive]

theorem queueCheckEvents_counts (env : Env) :
    allocCalls (queueCheckEvents env) = 0 ∧ routeCalls (queueCheckEvents env) = 0 ∧
    freeCalls (queueCheckEvents env) = 0 ∧ receiveCalls (queueCheckEvents env) = 0 := by
  unfold queueCheckEvents
  split <;> simp [allocCalls, routeCalls, freeCalls, receiveCalls, Event.isAlloc,
    Event.isRoute, Event.isFree, Event.isReceive]

theorem DisplayStartupScreen_own (env : Env) (s : State) :
    (DisplayStartupScreen env s).own = s.own := by
  simp only [DisplayStartupScreen, SendMyBufferToLcd_own]
  rfl

theorem DisplayStartupScreen_pMyBuffer (env : Env) (s : State) :
    (DisplayStartupScreen env s).pMyBuffer =
      env.copyRows env.pMetaWatchSplash STARTING_ROW env.c.NUM_LCD_ROWS s.pMyBuffer := by
  simp only [DisplayStartupScreen, SendMyBufferToLcd_pMyBuffer]
  rfl

/-- The flags and the timers when startup is done. -/
theorem DisplayTask_startup_state (env : Env) (s : State) :
    (DisplayTask_startup env s).nvIdleBufferConfig = env.c.WATCH_CONTROLS_TOP ∧
    (DisplayTask_startup env s).nvIdleBufferInvert = 0 ∧
    (DisplayTask_startup env s).AllowConnectionStateChangeToUpdateScreen = 0 ∧
    (DisplayTask_startup env s).timers =
      Function.update s.timers (DisplayTask_startup env s).IdleModeTimerId
        { s.timers (DisplayTask_startup env s).IdleModeTimerId with
          armed := true, period := env.c.ONE_SECOND * 3, repeating := env.c.NO_REPEAT,
          messageType := eMessageType.SplashTimeoutMsg, options := env.c.NO_MSG_OPTIONS } := by
  simp only [DisplayTask_startup]
  generalize hs1 : (if env.queueHandle = 0 then
    s.log (Event.PrintString DebugText.DisplayQueueNotCreated) else s) = s1
  have h1 : s1.timers = s.timers := by
    subst hs1
    split <;> rfl
  have h2 : (DisplayStartupScreen env s1).timers = s1.timers :=
    congrArg (fun o => o.2.2.2.2.2.2.2) (DisplayStartupScreen_own env s1)
  generalize DisplayStartupScreen env s1 = s2 at h2 ⊢
  simp [h2, h1, InitialiazeIdleBufferConfig, InitializeIdleBufferInvert,
    AllocateDisplayTimers, AllocateOneSecondTimer, SetupSplashScreenTimeout,
    SetupOneSecondTimer, StartOneSecondTimer, State.log]

theorem DisplayTask_iteration_flags (env : Env) (rx : Option Received) (s : State) :
    (DisplayTask_iteration env rx s).nvIdleBufferInvert = s.nvIdleBufferInvert ∧
    (DisplayTask_iteration env rx s).nvIdleBufferConfig = s.nvIdleBufferConfig ∧
    (DisplayTask_iteration env rx s).AllowConnectionStateChangeToUpdateScreen =
      if hasSplash [rx] then 1 else s.AllowConnectionStateChangeToUpdateScreen := by
  cases rx with
  | none => simp [DisplayTask_iteration, State.log, hasSplash]
  | some m =>
    have hty : ((xQueueReceive m s).mem m.pMsg).Type_ = m.Type_ := by
      have := xQueueReceive_type m s
      rwa [xQueueReceive_pDisplayMsg] at this
    have hi := DisplayQueueMessageHandler_invert env m.pMsg (xQueueReceive m s)
    have hg := DisplayQueueMessageHandler_gate env m.pMsg (xQueueReceive m s)
    rw [DisplayTask_iteration_some]
    refine ⟨?_, ?_, ?_⟩
    · exact hi.1
    · exact hi.2
    · show (DisplayQueueMessageHandler env m.pMsg
        (xQueueReceive m s)).AllowConnectionStateChangeToUpdateScreen = _
      rw [hg, hty]
      by_cases h : m.Type_ = eMessageType.SplashTimeoutMsg <;> simp [h, hasSplash, xQueueReceive,
        State.log, State.poke]

theorem hasSplash_cons (rx : Option Received) (rest : List (Option Received)) :
    hasSplash (rx :: rest) = (hasSplash [rx] || hasSplash rest) := by
  simp [hasSplash]

theorem DisplayTask_loop_flags (env : Env) (rxs : List (Option Received)) (s : State) :
    (DisplayTask_loop env rxs s).nvIdleBufferInvert = s.nvIdleBufferInvert ∧
    (DisplayTask_loop env rxs s).nvIdleBufferConfig = s.nvIdleBufferConfig ∧
    (DisplayTask_loop env rxs s).AllowConnectionStateChangeToUpdateScreen =
      if hasSplash rxs then 1 else s.AllowConnectionStateChangeToUpdateScreen := by
  induction rxs generalizing s with
  | nil => simp [DisplayTask_loop, hasSplash]
  | cons rx rest ih =>
    obtain ⟨a1, a2, a3⟩ := DisplayTask_iteration_flags env rx s
    obtain ⟨b1, b2, b3⟩ := ih (DisplayTask_iteration env rx s)
    refine ⟨?_, ?_, ?_⟩
    · simp [DisplayTask_loop, b1, a1]
    · simp [DisplayTask_loop, b2, a2]
    · simp only [DisplayTask_loop]
      rw [b3, a3]
      have hc := hasSplash_cons rx rest
      generalize hasSplash (rx :: rest) = c at hc ⊢
      generalize hasSplash [rx] = a at hc ⊢
      generalize hasSplash rest = b at hc ⊢
      subst hc
      cases a <;> cases b <;> simp

theorem hasSplash_iff (rxs : List (Option Received)) :
    hasSplash rxs = true ↔ ∃ m, some m ∈ rxs ∧ m.Type_ = eMessageType.SplashTimeoutMsg := by
  simp only [hasSplash, List.any_eq_true]
  constructor
  · rintro ⟨rx, hrx, h⟩
    cases rx with
    | none => simp at h
    | some m => exact ⟨m, hrx, by simpa using h⟩
  · rintro ⟨m, hm, h⟩
    exact ⟨some m, hm, by simpa using h⟩

/-- Every pass of the loop opens with the receive. -/
theorem DisplayTask_iteration_head (env : Env) (rx : Option Received) (s : State) :
    ∃ e0, (DisplayTask_iteration env rx s).trace =
      s.trace ++ Event.xQueueReceive (rx.map fun m => m.pMsg) :: e0 := by
  cases rx with
  | none => exact ⟨[], by simp [DisplayTask_iteration, State.log]⟩
  | some m =>
    obtain ⟨evs, h1, _⟩ := DisplayQueueMessageHandler_trace env m.pMsg (xQueueReceive m s)
    refine ⟨evs ++ [Event.BPL_FreeMessageBuffer
      (DisplayQueueMessageHandler env m.pMsg (xQueueReceive m s)).pDisplayMsg], ?_⟩
    rw [DisplayTask_iteration_some]
    simp [BPL_FreeMessageBuffer, State.log, h1, xQueueReceive_trace]

theorem StopOneSecondTimer_timers (id h : Nat) (s : State) :
    ((StopOneSecondTimer id s).timers h).armed =
      if h = id then false else (s.timers h).armed := by
  by_cases e : h = id
  · simp [StopOneSecondTimer, e]
  · simp [StopOneSecondTimer, e]

theorem StopAllDisplayTimers_timers (s : State) (h : Nat) :
    ((StopAllDisplayTimers s).timers h).armed =
      if h = s.IdleModeTimerId ∨ h = s.ApplicationModeTimerId ∨ h = s.NotificationModeTimerId
      then false else (s.timers h).armed := by
  have e : StopAllDisplayTimers s = StopOneSecondTimer s.NotificationModeTimerId
      (StopOneSecondTimer s.ApplicationModeTimerId
        (StopOneSecondTimer s.IdleModeTimerId s)) := rfl
  rw [e, StopOneSecondTimer_timers, StopOneSecondTimer_timers, StopOneSecondTimer_timers]
  by_cases h1 : h = s.NotificationModeTimerId <;> by_cases h2 : h = s.ApplicationModeTimerId <;>
    by_cases h3 : h = s.IdleModeTimerId <;> simp [h1, h2, h3]

theorem disarm_of_disarmed (t : OneSecondTimer) (h : t.armed = false) :
    { t with armed := false } = t := by
  cases t
  simp only at h
  subst h
  rfl

theorem StopOneSecondTimer_forget (id : Nat) (s : State) (h : (s.timers id).armed = false) :
    (StopOneSecondTimer id s).forget = s.forget := by
  simp [StopOneSecondTimer, State.forget, disarm_of_disarmed _ h]

theorem StopOneSecondTimer_armed (id h : Nat) (s : State) (hh : (s.timers h).armed = false) :
    ((StopOneSecondTimer id s).timers h).armed = false := by
  by_cases e : h = id
  · simp [StopOneSecondTimer, e]
  · simp [StopOneSecondTimer, e, hh]

/-- When the three timers are disarmed, stopping them changes nothing but the
trace. -/
theorem StopAllDisplayTimers_forget (s : State)
    (h1 : (s.timers s.IdleModeTimerId).armed = false)
    (h2 : (s.timers s.ApplicationModeTimerId).armed = false)
    (h3 : (s.timers s.NotificationModeTimerId).armed = false) :
    (StopAllDisplayTimers s).forget = s.forget := by
  have e1 : (StopOneSecondTimer s.IdleModeTimerId s).forget = s.forget :=
    StopOneSecondTimer_forget _ s h1
  have e2 : (StopOneSecondTimer s.ApplicationModeTimerId
      (StopOneSecondTimer s.IdleModeTimerId s)).forget = s.forget := by
    rw [StopOneSecondTimer_forget _ _ (StopOneSecondTimer_armed _ _ s h2)]
    exact e1
  have e3 : (StopOneSecondTimer s.NotificationModeTimerId
      (StopOneSecondTimer s.ApplicationModeTimerId
        (StopOneSecondTimer s.IdleModeTimerId s))).forget = s.forget := by
    rw [StopOneSecondTimer_forget _ _
      (StopOneSecondTimer_armed _ _ _ (StopOneSecondTimer_armed _ _ s h3))]
    exact e2
  exact e3

theorem StopAllDisplayTimers_ids (s : State) :
    (StopAllDisplayTimers s).IdleModeTimerId = s.IdleModeTimerId ∧
    (StopAllDisplayTimers s).ApplicationModeTimerId = s.ApplicationModeTimerId ∧
    (StopAllDisplayTimers s).NotificationModeTimerId = s.NotificationModeTimerId :=
  ⟨rfl, rfl, rfl⟩

theorem StopAllDisplayTimers_trace (s : State) :
    (StopAllDisplayTimers s).trace =
      s.trace ++ [Event.StopOneSecondTimer s.IdleModeTimerId,
                  Event.StopOneSecondTimer s.ApplicationModeTimerId,
                  Event.StopOneSecondTimer s.NotificationModeTimerId] := by
  simp [StopAllDisplayTimers, StopOneSecondTimer]

theorem ToggleIdleBufferInvert_flags (s : State) :
    (ToggleIdleBufferInvert s).nvIdleBufferInvert = (if s.nvIdleBufferInvert = 1 then 0 else 1) ∧
    (ToggleIdleBufferInvert s).nvIdleBufferConfig = s.nvIdleBufferConfig := by
  by_cases h : s.nvIdleBufferInvert = 1 <;> simp [ToggleIdleBufferInvert, State.log, h]

theorem toggles_cons (o : Op) (rest : List Op) :
    toggles (o :: rest) = toggles [o] + toggles rest := by
  cases o <;> simp [toggles, List.countP_cons]
  omega

/-- The invert flag counts the toggles modulo two; the layout flag stays. -/
theorem runOps_flags (env : Env) (ops : List Op) (s : State) (h : s.nvIdleBufferInvert ≤ 1) :
    (runOps env ops s).nvIdleBufferInvert = (s.nvIdleBufferInvert + toggles ops) % 2 ∧
    (runOps env ops s).nvIdleBufferConfig = s.nvIdleBufferConfig := by
  induction ops generalizing s with
  | nil =>
    simp only [runOps, toggles, List.countP_nil, Nat.add_zero, and_true]
    omega
  | cons o rest ih =>
    have step : (runOp env o s).nvIdleBufferInvert = (s.nvIdleBufferInvert + toggles [o]) % 2 ∧
        (runOp env o s).nvIdleBufferConfig = s.nvIdleBufferConfig := by
      cases o with
      | ToggleIdleBufferInvert =>
        have := ToggleIdleBufferInvert_flags s
        refine ⟨?_, this.2⟩
        show (ToggleIdleBufferInvert s).nvIdleBufferInvert = _
        rw [this.1]
        have : toggles [Op.ToggleIdleBufferInvert] = 1 := rfl
        rw [this]
        split <;> omega
      | QueryInvertDisplay =>
        have : toggles [Op.QueryInvertDisplay] = 0 := rfl
        rw [this]
        exact ⟨by show s.nvIdleBufferInvert = _; omega, rfl⟩
      | GetIdleBufferConfiguration =>
        have : toggles [Op.GetIdleBufferConfiguration] = 0 := rfl
        rw [this]
        exact ⟨by show s.nvIdleBufferInvert = _; omega, rfl⟩
      | receive rx =>
        have : toggles [Op.receive rx] = 0 := rfl
        rw [this]
        have k := DisplayTask_iteration_flags env rx s
        exact ⟨by show (DisplayTask_iteration env rx s).nvIdleBufferInvert = _; rw [k.1]; omega,
          k.2.1⟩
    have hle : (runOp env o s).nvIdleBufferInvert ≤ 1 := by
      rw [step.1]
      omega
    obtain ⟨i1, i2⟩ := ih (runOp env o s) hle
    refine ⟨?_, ?_⟩
    · simp only [runOps]
      rw [i1, step.1]
      have := toggles_cons o rest
      omega
    · simp only [runOps]
      rw [i2, step.2]

/-- States that agree but for the trace agree on the three flags. -/
theorem forget_flags (a b : State) (h : a.forget = b.forget) :
    a.nvIdleBufferInvert = b.nvIdleBufferInvert ∧
    a.nvIdleBufferConfig = b.nvIdleBufferConfig ∧
    a.AllowConnectionStateChangeToUpdateScreen = b.AllowConnectionStateChangeToUpdateScreen := by
  have h1 : a.forget.nvIdleBufferInvert = b.forget.nvIdleBufferInvert := by rw [h]
  have h2 : a.forget.nvIdleBufferConfig = b.forget.nvIdleBufferConfig := by rw [h]
  have h3 : a.forget.AllowConnectionStateChangeToUpdateScreen =
      b.forget.AllowConnectionStateChangeToUpdateScreen := by rw [h]
  exact ⟨h1, h2, h3⟩

theorem allocated_append (a b : List Event) :
    allocated (a ++ b) = allocated a ++ allocated b := by
  simp [allocated]

theorem routed_append (a b : List Event) : routed (a ++ b) = routed a ++ routed b := by
  simp [routed]

theorem freed_append (a b : List Event) : freed (a ++ b) = freed a ++ freed b := by
  simp [freed]

theorem quietEvents_freed {evs : List Event} (h : quietEvents evs) : freed evs = [] := by
  have h1 := h.1
  clear h
  induction evs with
  | nil => rfl
  | cons e rest ih =>
    have he := (h1 e (List.mem_cons_self e rest)).1
    have hr := ih fun x hx => h1 x (List.mem_cons_of_mem e hx)
    cases e <;> simp_all [freed, Event.isFree]

/-- The loop serves its receives pass after pass. -/
theorem DisplayTask_loop_served (env : Env) (rxs : List (Option Received)) (s : State) :
    ∃ evs, (DisplayTask_loop env rxs s).trace = s.trace ++ evs ∧ servedBy rxs evs := by
  induction rxs generalizing s with
  | nil => exact ⟨[], by simp [DisplayTask_loop], rfl⟩
  | cons rx rest ih =>
    obtain ⟨e2, h2, k2⟩ := ih (DisplayTask_iteration env rx s)
    cases rx with
    | none =>
      refine ⟨Event.xQueueReceive none :: e2, ?_, e2, rfl, k2⟩
      simp only [DisplayTask_loop]
      rw [h2]
      simp [DisplayTask_iteration, State.log]
    | some m =>
      obtain ⟨d, h1, q⟩ := DisplayQueueMessageHandler_trace env m.pMsg (xQueueReceive m s)
      have hp : (DisplayQueueMessageHandler env m.pMsg (xQueueReceive m s)).pDisplayMsg =
          m.pMsg := by
        rw [DisplayQueueMessageHandler_pDisplayMsg, xQueueReceive_pDisplayMsg]
      refine ⟨Event.xQueueReceive (some m.pMsg) ::
        (d ++ Event.BPL_FreeMessageBuffer m.pMsg :: e2), ?_, d, e2, rfl, q, k2⟩
      simp only [DisplayTask_loop]
      rw [h2, DisplayTask_iteration_some]
      simp [BPL_FreeMessageBuffer, State.log, h1, hp, xQueueReceive_trace]

/-- What is freed while the loop serves `rxs` is the received buffers, each once
and in order; what is allocated is what is routed. -/
theorem servedBy_lists (rxs : List (Option Received)) (evs : List Event)
    (h : servedBy rxs evs) :
    freed evs = receivedPtrs rxs ∧ allocated evs = routed evs ∧
    freeCalls evs = received rxs ∧ allocCalls evs = routeCalls evs := by
  induction rxs generalizing evs with
  | nil =>
    have : evs = [] := h
    subst this
    simp [freed, receivedPtrs, allocated, routed, freeCalls, received, allocCalls, routeCalls]
  | cons rx rest ih =>
    cases rx with
    | none =>
      obtain ⟨tl, e, k⟩ := h
      obtain ⟨a1, a2, a3, a4⟩ := ih tl k
      subst e
      refine ⟨?_, ?_, ?_, ?_⟩
      · simpa [freed, receivedPtrs] using a1
      · simpa [allocated, routed] using a2
      · simpa [freeCalls, received, Event.isFree] using a3
      · simpa [allocCalls, routeCalls, Event.isAlloc, Event.isRoute] using a4
    | some m =>
      obtain ⟨d, tl, e, q, k⟩ := h
      obtain ⟨a1, a2, a3, a4⟩ := ih tl k
      have f0 := quietEvents_freed q
      have c0 := quietEvents_freeCalls q
      have q1 := q.2.1
      have q2 := q.2.2
      subst e
      refine ⟨?_, ?_, ?_, ?_⟩
      · simp only [freed, receivedPtrs] at a1 f0 ⊢
        simp [List.filterMap_append, f0, a1]
      · simp only [allocated, routed] at a2 q2 ⊢
        simp [List.filterMap_append, q2, a2]
      · simp only [freeCalls, received] at a3 c0 ⊢
        simp [List.countP_append, List.countP_cons, Event.isFree, c0, a3]
      · simp only [allocCalls, routeCalls] at a4 q1 ⊢
        simp [List.countP_append, List.countP_cons, Event.isAlloc, Event.isRoute, q1, a4]

theorem startupEvents_lists (env : Env) (p : Ptr) (S : State) :
    allocated (queueCheckEvents env ++ startupEvents env p S) = [p] ∧
    routed (queueCheckEvents env ++ startupEvents env p S) = [p] ∧
    freed (queueCheckEvents env ++ startupEvents env p S) = [] := by
  unfold queueCheckEvents
  split <;> simp [startupEvents, allocated, routed, freed]

theorem SendMyBufferToLcd_undefinedBehaviour (env : Env) (r : Nat) (s : State) :
    (SendMyBufferToLcd env r s).undefinedBehaviour =
      (s.undefinedBehaviour || env.exhausted s) := by
  cases h1 : s.undefinedBehaviour <;> cases h2 : env.exhausted s <;>
    simp [SendMyBufferToLcd, State.log, State.store, State.poke, h1, h2]

/-! ## The claims -/

/-- C1: for every received message, whatever its type, one pass through the task
loop dispatches it and then frees that same buffer exactly once: the events of
the pass are the receive, the events `evs` of `DisplayQueueMessageHandler` on
that message, and last one `BPL_FreeMessageBuffer` of its buffer; nothing is
freed among `evs`.  For a type that is neither `IdleUpdate` nor
`SplashTimeoutMsg` the dispatch only logs the type, and the free still
follows. -/
theorem C1_dispatch_then_free_once (env : Env) (m : Received) (s : State) :
    ∃ evs,
      (DisplayQueueMessageHandler env m.pMsg (xQueueReceive m s)).trace =
        s.trace ++ Event.xQueueReceive (some m.pMsg) :: evs ∧
      (DisplayTask_iteration env (some m) s).trace =
        s.trace ++ Event.xQueueReceive (some m.pMsg) :: evs ++
          [Event.BPL_FreeMessageBuffer m.pMsg] ∧
      freeCalls evs = 0 ∧
      (m.Type_ = eMessageType.IdleUpdate ∨ m.Type_ = eMessageType.SplashTimeoutMsg ∨
        evs = [Event.PrintStringAndHex DebugText.UnhandledMessage m.Type_]) := by
  have hty : ((xQueueReceive m s).mem m.pMsg).Type_ = m.Type_ := by
    have := xQueueReceive_type m s
    rwa [xQueueReceive_pDisplayMsg] at this
  obtain ⟨evs, h1, h2⟩ := DisplayQueueMessageHandler_trace env m.pMsg (xQueueReceive m s)
  have hp : (DisplayQueueMessageHandler env m.pMsg (xQueueReceive m s)).pDisplayMsg = m.pMsg := by
    rw [DisplayQueueMessageHandler_pDisplayMsg, xQueueReceive_pDisplayMsg]
  refine ⟨evs, ?_, ?_, quietEvents_freeCalls h2, ?_⟩
  · rw [h1, xQueueReceive_trace]
    simp
  · rw [DisplayTask_iteration_some]
    simp [BPL_FreeMessageBuffer, State.log, h1, hp, xQueueReceive_trace]
  · rcases DisplayQueueMessageHandler_cases env m.pMsg (xQueueReceive m s) with
      ⟨h, _⟩ | ⟨h, _⟩ | ⟨_, _, h⟩
    · exact Or.inl (hty ▸ h)
    · exact Or.inr (Or.inl (hty ▸ h))
    · refine Or.inr (Or.inr ?_)
      rw [h, hty] at h1
      simpa [State.log] using h1.symm

/-- C2, counterexample: the task starts and serves one message of a type it
does not know.  One message is received and the task allocates one buffer of
its own (the splash hand-off at startup), two allocations in all, yet it calls
`BPL_FreeMessageBuffer` once. -/
theorem C2_counts_differ :
    received [some { pMsg := 8, Type_ := eMessageType.other 5 }] +
        allocCalls (DisplayTask sampleEnv
          [some { pMsg := 8, Type_ := eMessageType.other 5 }] powerOn).trace = 2 ∧
    freeCalls (DisplayTask sampleEnv
      [some { pMsg := 8, Type_ := eMessageType.other 5 }] powerOn).trace = 1 ∧
    received [some { pMsg := 8, Type_ := eMessageType.other 5 }] +
        allocCalls (DisplayTask sampleEnv
          [some { pMsg := 8, Type_ := eMessageType.other 5 }] powerOn).trace ≠
      freeCalls (DisplayTask sampleEnv
        [some { pMsg := 8, Type_ := eMessageType.other 5 }] powerOn).trace := by
  decide

/-- C2, amended: for every finite sequence of receive outcomes, the events of a
run of the task are the startup events `pre` followed by the loop events
`loopEvs`.  Nothing is freed during startup, and the one buffer allocated
there is the one routed.  The loop serves the receives pass after pass: each
received message is received, dispatched with nothing freed meanwhile, and
then its buffer is freed.  Over the whole run the buffers freed are the
received buffers, each once and in order, and nothing else; the buffers the
task allocates itself in `SendMyBufferToLcd` are, one for one, the buffers it
passes to `RouteMsg`, and at least the startup one exists; so the frees of the
task number the received messages and fall short of the received messages
plus its own allocations. -/
theorem C2_frees_match_received (env : Env) (rxs : List (Option Received)) (s : State) :
    ∃ pre loopEvs,
      (DisplayTask_startup env s).trace = s.trace ++ pre ∧
      (DisplayTask env rxs s).trace = s.trace ++ (pre ++ loopEvs) ∧
      freed pre = [] ∧
      (∃ p, allocated pre = [p] ∧ routed pre = [p]) ∧
      servedBy rxs loopEvs ∧
      freed (pre ++ loopEvs) = receivedPtrs rxs ∧
      allocated (pre ++ loopEvs) = routed (pre ++ loopEvs) ∧
      freeCalls (pre ++ loopEvs) = received rxs ∧
      allocCalls (pre ++ loopEvs) = routeCalls (pre ++ loopEvs) ∧
      1 ≤ allocCalls (pre ++ loopEvs) ∧
      freeCalls (pre ++ loopEvs) < received rxs + allocCalls (pre ++ loopEvs) := by
  obtain ⟨p, hp⟩ := DisplayTask_startup_trace env s
  obtain ⟨e2, h2, k2⟩ := DisplayTask_loop_served env rxs (DisplayTask_startup env s)
  obtain ⟨l1, l2, l3, l4⟩ := servedBy_lists rxs e2 k2
  obtain ⟨sa, sr, sf, _⟩ := startupEvents_counts env p (DisplayTask_startup env s)
  obtain ⟨qa, qr, qf, _⟩ := queueCheckEvents_counts env
  obtain ⟨m1, m2, m3⟩ := startupEvents_lists env p (DisplayTask_startup env s)
  refine ⟨queueCheckEvents env ++ startupEvents env p (DisplayTask_startup env s), e2,
    ?_, ?_, m3, ⟨p, m1, m2⟩, k2, ?_, ?_, ?_, ?_, ?_, ?_⟩
  · rw [hp, List.append_assoc]
  · simp only [DisplayTask]
    rw [h2, hp]
    simp
  · rw [freed_append, m3, l1]
    rfl
  · rw [allocated_append, routed_append, m1, m2, l2]
  all_goals
    simp only [allocCalls, routeCalls, freeCalls, List.countP_append] at *
    omega

/-- C3: for every row count `r` and whatever buffer the pool provides,
`SendMyBufferToLcd(r)` makes exactly one `BPL_AllocMessageBuffer` call and one
`RouteMsg` call, on the buffer the pool provided, which then holds type
`UpdateMyDisplayLcd`, `TotalLines = r` and a `pMyDisplay` that points at
`pMyBuffer` itself; the contents of `pMyBuffer`, the idle configuration and
invert flags, the gating flag, the timer handles and the timers are
unchanged. -/
theorem C3_hand_off_message (env : Env) (r : Nat) (s : State) :
    (SendMyBufferToLcd env r s).trace =
      s.trace ++ [Event.BPL_AllocMessageBuffer (env.allocResult s),
        Event.RouteMsg (env.allocResult s)
          { Type_ := eMessageType.UpdateMyDisplayLcd, TotalLines := r,
            pMyDisplay := BufferRef.pMyBuffer }] ∧
    (SendMyBufferToLcd env r s).mem (env.allocResult s) =
      { Type_ := eMessageType.UpdateMyDisplayLcd, TotalLines := r,
        pMyDisplay := BufferRef.pMyBuffer } ∧
    (SendMyBufferToLcd env r s).pMyBuffer = s.pMyBuffer ∧
    (SendMyBufferToLcd env r s).nvIdleBufferConfig = s.nvIdleBufferConfig ∧
    (SendMyBufferToLcd env r s).nvIdleBufferInvert = s.nvIdleBufferInvert ∧
    (SendMyBufferToLcd env r s).AllowConnectionStateChangeToUpdateScreen =
      s.AllowConnectionStateChangeToUpdateScreen ∧
    (SendMyBufferToLcd env r s).own = s.own := by
  refine ⟨SendMyBufferToLcd_trace env r s, ?_, SendMyBufferToLcd_pMyBuffer env r s, ?_, ?_, ?_,
    SendMyBufferToLcd_own env r s⟩
  · rw [SendMyBufferToLcd_mem]
    simp [handOffMsg]
  · exact congrArg (fun o => o.2.2.2.2.1) (SendMyBufferToLcd_own env r s)
  · exact congrArg (fun o => o.2.2.2.2.2.1) (SendMyBufferToLcd_own env r s)
  · exact congrArg (fun o => o.2.2.2.2.2.2.1) (SendMyBufferToLcd_own env r s)

/-- C4, evaluated on the code: `SendMyBufferToLcd` does not drop the hand-off
when the pool is exhausted.  Whatever the pool answers, the function goes on
to the stores of lines 180 to 182, so undefined behaviour is reached exactly
when it was reached before or the pool provided no buffer; with the sample
pool exhausted, from the power-on state, the store through the pointer that
is no buffer is reached. -/
theorem C4_exhausted_store_reached (env : Env) (r : Nat) (s : State) :
    (SendMyBufferToLcd env r s).undefinedBehaviour =
      (s.undefinedBehaviour || env.exhausted s) ∧
    exhaustedEnv.exhausted powerOn = true ∧
    powerOn.undefinedBehaviour = false ∧
    (SendMyBufferToLcd exhaustedEnv 2 powerOn).undefinedBehaviour = true :=
  ⟨SendMyBufferToLcd_undefinedBehaviour env r s, rfl, rfl, by decide⟩

/-- C8: `ToggleIdleBufferInvert` is an involution on every value the invert flag
holds.  The flag is 0 or 1 after startup and after any interleaving of
toggles, reads and loop passes that follows, and after any single toggle from
any value; on a state where it is 0 or 1, two toggles give the flag its
original value back and change nothing but the trace, so the layout flag and
the gating flag are unchanged.  From any value at all, one toggle stores 0 if
the flag was 1 and 1 otherwise, two toggles give 1 if the flag was 1 and 0
otherwise, and a toggle leaves the layout flag and the gating flag alone. -/
theorem C8_toggle_involution (s : State) (h : s.nvIdleBufferInvert = 0 ∨ s.nvIdleBufferInvert = 1) :
    (ToggleIdleBufferInvert (ToggleIdleBufferInvert s)).nvIdleBufferInvert =
      s.nvIdleBufferInvert ∧
    (ToggleIdleBufferInvert (ToggleIdleBufferInvert s)).forget = s.forget ∧
    (∀ s1 : State, (ToggleIdleBufferInvert (ToggleIdleBufferInvert s1)).nvIdleBufferInvert =
      if s1.nvIdleBufferInvert = 1 then 1 else 0) ∧
    (∀ s1 : State, (ToggleIdleBufferInvert s1).nvIdleBufferConfig = s1.nvIdleBufferConfig ∧
      (ToggleIdleBufferInvert s1).AllowConnectionStateChangeToUpdateScreen =
        s1.AllowConnectionStateChangeToUpdateScreen) ∧
    (∀ s1 : State, (ToggleIdleBufferInvert s1).nvIdleBufferInvert =
      if s1.nvIdleBufferInvert = 1 then 0 else 1) ∧
    (∀ (env : Env) (ops : List Op) (s0 : State),
      (runOps env ops (DisplayTask_startup env s0)).nvIdleBufferInvert = 0 ∨
      (runOps env ops (DisplayTask_startup env s0)).nvIdleBufferInvert = 1) ∧
    (∀ (env : Env) (ops : List Op) (s0 : State),
      (ToggleIdleBufferInvert (ToggleIdleBufferInvert
        (runOps env ops (DisplayTask_startup env s0)))).nvIdleBufferInvert =
      (runOps env ops (DisplayTask_startup env s0)).nvIdleBufferInvert ∧
      (ToggleIdleBufferInvert (ToggleIdleBufferInvert
        (runOps env ops (DisplayTask_startup env s0)))).nvIdleBufferConfig =
      (runOps env ops (DisplayTask_startup env s0)).nvIdleBufferConfig ∧
      (ToggleIdleBufferInvert (ToggleIdleBufferInvert
        (runOps env ops
          (DisplayTask_startup env s0)))).AllowConnectionStateChangeToUpdateScreen =
      (runOps env ops (DisplayTask_startup env s0)).AllowConnectionStateChangeToUpdateScreen) := by
  have two : ∀ s1 : State, (s1.nvIdleBufferInvert = 0 ∨ s1.nvIdleBufferInvert = 1) →
      (ToggleIdleBufferInvert (ToggleIdleBufferInvert s1)).forget = s1.forget := by
    intro s1 h1
    cases s1
    rcases h1 with h1 | h1 <;> simp only at h1 <;> subst h1 <;>
      simp [ToggleIdleBufferInvert, State.log, State.forget]
  have inv : ∀ (env : Env) (ops : List Op) (s0 : State),
      (runOps env ops (DisplayTask_startup env s0)).nvIdleBufferInvert = 0 ∨
      (runOps env ops (DisplayTask_startup env s0)).nvIdleBufferInvert = 1 := by
    intro env ops s0
    have c2 := (DisplayTask_startup_state env s0).2.1
    have k := (runOps_flags env ops (DisplayTask_startup env s0) (by rw [c2]; omega)).1
    rw [k]
    omega
  refine ⟨?_, two s h, ?_, ?_, ?_, inv, ?_⟩
  · exact (forget_flags _ _ (two s h)).1
  · intro s1
    by_cases h1 : s1.nvIdleBufferInvert = 1 <;> simp [ToggleIdleBufferInvert, State.log, h1]
  · intro s1
    by_cases h1 : s1.nvIdleBufferInvert = 1 <;> simp [ToggleIdleBufferInvert, State.log, h1]
  · intro s1
    by_cases h1 : s1.nvIdleBufferInvert = 1 <;> simp [ToggleIdleBufferInvert, State.log, h1]
  · intro env ops s0
    have k := two _ (inv env ops s0)
    exact forget_flags _ _ k

/-- C8 at the power-on state, where the flag is 0. -/
theorem C8_toggle_involution_witness :
    (powerOn.nvIdleBufferInvert = 0 ∨ powerOn.nvIdleBufferInvert = 1) ∧
    (ToggleIdleBufferInvert (ToggleIdleBufferInvert powerOn)).nvIdleBufferInvert =
      powerOn.nvIdleBufferInvert :=
  ⟨Or.inl rfl, (C8_toggle_involution powerOn (Or.inl rfl)).1⟩

/-- C5: during startup exactly one hand-off is made, and it comes before the
first `xQueueReceive`: the events of startup are the queue check, then
`CopyRowsIntoMyBuffer(pMetaWatchSplash, 0, NUM_LCD_ROWS)`, one allocation and
one `RouteMsg` of a message with `TotalLines = NUM_LCD_ROWS`, then events
`post` among which nothing is allocated or routed; nothing is received during
startup; when the hand-off is sent the frame buffer holds what the copy of the
splash image left there; and every run of the task begins with the startup
events, each later pass of the loop opening with a receive. -/
theorem C5_single_splash_hand_off (env : Env) (s : State) :
    ∃ p post,
      (DisplayTask_startup env s).trace =
        s.trace ++ queueCheckEvents env ++
          [Event.CopyRowsIntoMyBuffer env.pMetaWatchSplash 0 env.c.NUM_LCD_ROWS,
           Event.BPL_AllocMessageBuffer p,
           Event.RouteMsg p { Type_ := eMessageType.UpdateMyDisplayLcd,
                              TotalLines := env.c.NUM_LCD_ROWS,
                              pMyDisplay := BufferRef.pMyBuffer }] ++ post ∧
      routeCalls (queueCheckEvents env) = 0 ∧ allocCalls (queueCheckEvents env) = 0 ∧
      routeCalls post = 0 ∧ allocCalls post = 0 ∧
      receiveCalls (queueCheckEvents env) = 0 ∧ receiveCalls post = 0 ∧
      (∀ s1 : State, (DisplayStartupScreen env s1).pMyBuffer =
        env.copyRows env.pMetaWatchSplash 0 env.c.NUM_LCD_ROWS s1.pMyBuffer) ∧
      (∀ rxs : List (Option Received), ∃ evs,
        (DisplayTask env rxs s).trace = (DisplayTask_startup env s).trace ++ evs ∧
        receiveCalls evs = rxs.length ∧ evs.head? = rxs.head?.map fun rx =>
          Event.xQueueReceive (rx.map fun m => m.pMsg)) := by
  obtain ⟨p, hp⟩ := DisplayTask_startup_trace env s
  obtain ⟨qa, qr, _, qv⟩ := queueCheckEvents_counts env
  refine ⟨p, (startupEvents env p (DisplayTask_startup env s)).drop 3, ?_, qr, qa, ?_, ?_, qv,
    ?_, ?_, ?_⟩
  · rw [hp]
    simp [startupEvents, handOffMsg, STARTING_ROW]
  · simp [startupEvents, routeCalls, Event.isRoute]
  · simp [startupEvents, allocCalls, Event.isAlloc]
  · simp [startupEvents, receiveCalls, Event.isReceive]
  · intro s1
    exact DisplayStartupScreen_pMyBuffer env s1
  · intro rxs
    obtain ⟨evs, h1, _, _, h4⟩ := DisplayTask_loop_trace env rxs (DisplayTask_startup env s)
    refine ⟨evs, h1, h4, ?_⟩
    cases rxs with
    | nil =>
      have : evs = [] := by
        have := congrArg List.length h1
        simp [DisplayTask_loop] at this
        exact this
      simp [this]
    | cons rx rest =>
      obtain ⟨e1, g1, _⟩ := DisplayTask_loop_trace env rest
        (DisplayTask_iteration env rx (DisplayTask_startup env s))
      have hh := DisplayTask_iteration_head env rx (DisplayTask_startup env s)
      obtain ⟨e0, g0⟩ := hh
      have : evs = Event.xQueueReceive (rx.map fun m => m.pMsg) :: e0 ++ e1 := by
        have h1b := h1
        simp only [DisplayTask, DisplayTask_loop] at h1b g1
        rw [g1, g0] at h1b
        simpa using h1b.symm
      simp [this]

/-- C6: the gating flag is 0 when startup completes; after any finite sequence
of receives served by the task it is 1 if and only if one of the received
messages had type `SplashTimeoutMsg`.  From any state, one pass of the loop
sets it to 1 for a `SplashTimeoutMsg` and leaves it as it is for every other
message and for an empty-handed receive, and a sequence of passes leaves it at
1 once some `SplashTimeoutMsg` is among them and as it was otherwise: nothing
resets it. -/
theorem C6_gating_flag (env : Env) (rxs : List (Option Received)) (s : State) :
    (DisplayTask_startup env s).AllowConnectionStateChangeToUpdateScreen = 0 ∧
    ((DisplayTask env rxs s).AllowConnectionStateChangeToUpdateScreen = 1 ↔
      ∃ m, some m ∈ rxs ∧ m.Type_ = eMessageType.SplashTimeoutMsg) ∧
    (∀ (m : Received) (s1 : State),
      (DisplayTask_iteration env (some m) s1).AllowConnectionStateChangeToUpdateScreen =
        if m.Type_ = eMessageType.SplashTimeoutMsg then 1
        else s1.AllowConnectionStateChangeToUpdateScreen) ∧
    (∀ s1 : State,
      (DisplayTask_iteration env none s1).AllowConnectionStateChangeToUpdateScreen =
        s1.AllowConnectionStateChangeToUpdateScreen) ∧
    (∀ (l : List (Option Received)) (s1 : State),
      (DisplayTask_loop env l s1).AllowConnectionStateChangeToUpdateScreen =
        if hasSplash l then 1 else s1.AllowConnectionStateChangeToUpdateScreen) := by
  have h0 := (DisplayTask_startup_state env s).2.2.1
  refine ⟨h0, ?_, ?_, ?_, ?_⟩
  · rw [← hasSplash_iff]
    have := (DisplayTask_loop_flags env rxs (DisplayTask_startup env s)).2.2
    simp only [DisplayTask]
    rw [this, h0]
    cases hasSplash rxs <;> simp
  · intro m s1
    rw [(DisplayTask_iteration_flags env (some m) s1).2.2]
    by_cases h : m.Type_ = eMessageType.SplashTimeoutMsg <;> simp [hasSplash, h]
  · intro s1
    rw [(DisplayTask_iteration_flags env none s1).2.2]
    simp [hasSplash]
  · intro l s1
    exact (DisplayTask_loop_flags env l s1).2.2

/-- C7: startup runs its steps in this order: the queue check; the splash copy
and its hand-off; the stores of `WATCH_CONTROLS_TOP` to the layout flag and of
0 to the invert flag; the seconds, time-format and date-format
initialisations; three `AllocateOneSecondTimer` calls, whose answers `t0`,
`t1`, `t2` become the idle, application and notification handles;
`InitIdlePage(t0, pMyBuffer)`; and last `SetupOneSecondTimer(t0, ONE_SECOND*3,
NO_REPEAT, SplashTimeoutMsg, NO_MSG_OPTIONS)`, `StartOneSecondTimer(t0)` and
the store of 0 to the gating flag.  Afterwards timer `t0` is armed with that
configuration and every other timer is as it was before startup: no setup or
start call is made for `t1` or `t2`. -/
theorem C7_startup_order (env : Env) (s : State) :
    ∃ p t0 t1 t2,
      (DisplayTask_startup env s).IdleModeTimerId = t0 ∧
      (DisplayTask_startup env s).ApplicationModeTimerId = t1 ∧
      (DisplayTask_startup env s).NotificationModeTimerId = t2 ∧
      (DisplayTask_startup env s).trace =
        s.trace ++ queueCheckEvents env ++
          [Event.CopyRowsIntoMyBuffer env.pMetaWatchSplash 0 env.c.NUM_LCD_ROWS,
           Event.BPL_AllocMessageBuffer p,
           Event.RouteMsg p { Type_ := eMessageType.UpdateMyDisplayLcd,
                              TotalLines := env.c.NUM_LCD_ROWS,
                              pMyDisplay := BufferRef.pMyBuffer },
           Event.store Flag.nvIdleBufferConfig env.c.WATCH_CONTROLS_TOP,
           Event.store Flag.nvIdleBufferInvert 0,
           Event.InitializeDisplaySeconds,
           Event.InitializeTimeFormat,
           Event.InitializeDateFormat,
           Event.AllocateOneSecondTimer t0,
           Event.AllocateOneSecondTimer t1,
           Event.AllocateOneSecondTimer t2,
           Event.InitIdlePage t0 BufferRef.pMyBuffer,
           Event.SetupOneSecondTimer t0 (3 * env.c.ONE_SECOND) env.c.NO_REPEAT
             eMessageType.SplashTimeoutMsg env.c.NO_MSG_OPTIONS,
           Event.StartOneSecondTimer t0,
           Event.store Flag.AllowConnectionStateChangeToUpdateScreen 0] ∧
      (∀ h : Nat, (DisplayTask_startup env s).timers h =
        if h = t0 then
          { armed := true, period := 3 * env.c.ONE_SECOND, repeating := env.c.NO_REPEAT,
            messageType := eMessageType.SplashTimeoutMsg, options := env.c.NO_MSG_OPTIONS }
        else s.timers h) ∧
      (DisplayTask_startup env s).AllowConnectionStateChangeToUpdateScreen = 0 ∧
      (DisplayTask_startup env s).nvIdleBufferConfig = env.c.WATCH_CONTROLS_TOP ∧
      (DisplayTask_startup env s).nvIdleBufferInvert = 0 := by
  obtain ⟨p, hp⟩ := DisplayTask_startup_trace env s
  obtain ⟨c1, c2, c3, c4⟩ := DisplayTask_startup_state env s
  refine ⟨p, _, _, _, rfl, rfl, rfl, ?_, ?_, c3, c1, c2⟩
  · rw [hp]
    simp [startupEvents, handOffMsg, STARTING_ROW, Nat.mul_comm]
  · intro h
    rw [c4]
    by_cases e : h = (DisplayTask_startup env s).IdleModeTimerId
    · subst e
      simp [Nat.mul_comm]
    · simp [e]

/-- C9: after startup, whatever interleaving of `ToggleIdleBufferInvert` calls,
loop passes (messages of any type, or empty-handed receives) and calls of the
two reads follows, `QueryInvertDisplay` returns the number of toggles modulo
two and `GetIdleBufferConfiguration` returns `WATCH_CONTROLS_TOP`; the two
reads leave every state exactly as it was. -/
theorem C9_query_reflects_toggles (env : Env) (ops : List Op) (s : State) :
    (QueryInvertDisplay (runOps env ops (DisplayTask_startup env s))).1 = toggles ops % 2 ∧
    (GetIdleBufferConfiguration (runOps env ops (DisplayTask_startup env s))).1 =
      env.c.WATCH_CONTROLS_TOP ∧
    (∀ s1 : State, (QueryInvertDisplay s1).2 = s1 ∧ (GetIdleBufferConfiguration s1).2 = s1 ∧
      (QueryInvertDisplay s1).1 = s1.nvIdleBufferInvert ∧
      (GetIdleBufferConfiguration s1).1 = s1.nvIdleBufferConfig) := by
  obtain ⟨c1, c2, _, _⟩ := DisplayTask_startup_state env s
  obtain ⟨h1, h2⟩ := runOps_flags env ops (DisplayTask_startup env s) (by rw [c2]; omega)
  refine ⟨?_, ?_, fun s1 => ⟨rfl, rfl, rfl, rfl⟩⟩
  · show (runOps env ops (DisplayTask_startup env s)).nvIdleBufferInvert = _
    rw [h1, c2]
    simp
  · show (runOps env ops (DisplayTask_startup env s)).nvIdleBufferConfig = _
    rw [h2, c1]

/-- C10: `StopAllDisplayTimers` calls `StopOneSecondTimer` on the idle, the
application and the notification handle, in that order, and nothing else (no
message is routed); afterwards a timer is disarmed if it is one of the three
and armed as before otherwise; every variable of the task is unchanged; a
second call leaves the same state as the first, trace apart; and when the
three timers are disarmed already, one call changes nothing but the trace. -/
theorem C10_stop_all_idempotent (s : State) :
    (StopAllDisplayTimers s).trace =
      s.trace ++ [Event.StopOneSecondTimer s.IdleModeTimerId,
                  Event.StopOneSecondTimer s.ApplicationModeTimerId,
                  Event.StopOneSecondTimer s.NotificationModeTimerId] ∧
    routeCalls (StopAllDisplayTimers s).trace = routeCalls s.trace ∧
    (∀ h : Nat, ((StopAllDisplayTimers s).timers h).armed =
      if h = s.IdleModeTimerId ∨ h = s.ApplicationModeTimerId ∨ h = s.NotificationModeTimerId
      then false else (s.timers h).armed) ∧
    (StopAllDisplayTimers s).own.1 = s.own.1 ∧
    (StopAllDisplayTimers s).own.2.1 = s.own.2.1 ∧
    (StopAllDisplayTimers s).own.2.2.1 = s.own.2.2.1 ∧
    (StopAllDisplayTimers s).own.2.2.2.1 = s.own.2.2.2.1 ∧
    (StopAllDisplayTimers s).own.2.2.2.2.1 = s.own.2.2.2.2.1 ∧
    (StopAllDisplayTimers s).own.2.2.2.2.2.1 = s.own.2.2.2.2.2.1 ∧
    (StopAllDisplayTimers s).own.2.2.2.2.2.2.1 = s.own.2.2.2.2.2.2.1 ∧
    (StopAllDisplayTimers s).pMyBuffer = s.pMyBuffer ∧
    (StopAllDisplayTimers (StopAllDisplayTimers s)).forget = (StopAllDisplayTimers s).forget ∧
    ((s.timers s.IdleModeTimerId).armed = false ∧
      (s.timers s.ApplicationModeTimerId).armed = false ∧
      (s.timers s.NotificationModeTimerId).armed = false →
        (StopAllDisplayTimers s).forget = s.forget) := by
  refine ⟨StopAllDisplayTimers_trace s, ?_, StopAllDisplayTimers_timers s, rfl, rfl, rfl, rfl,
    rfl, rfl, rfl, rfl, ?_, ?_⟩
  · rw [StopAllDisplayTimers_trace]
    simp [routeCalls, Event.isRoute]
  · apply StopAllDisplayTimers_forget
    · rw [StopAllDisplayTimers_timers]
      simp [(StopAllDisplayTimers_ids s).1]
    · rw [StopAllDisplayTimers_timers]
      simp [(StopAllDisplayTimers_ids s).2.1]
    · rw [StopAllDisplayTimers_timers]
      simp [(StopAllDisplayTimers_ids s).2.2]
  · rintro ⟨h1, h2, h3⟩
    exact StopAllDisplayTimers_forget s h1 h2 h3

/-- C10 at the power-on state, where every timer is disarmed: stopping the
display timers changes nothing but the trace. -/
theorem C10_stop_all_idempotent_witness :
    ((powerOn.timers powerOn.IdleModeTimerId).armed = false ∧
      (powerOn.timers powerOn.ApplicationModeTimerId).armed = false ∧
      (powerOn.timers powerOn.NotificationModeTimerId).armed = false) ∧
    (StopAllDisplayTimers powerOn).forget = powerOn.forget :=
  ⟨⟨rfl, rfl, rfl⟩, (C10_stop_all_idempotent powerOn).2.2.2.2.2.2.2.2.2.2.2.2 ⟨rfl, rfl, rfl⟩⟩

end LcdDisplay
